import Mathlib

/-!
Shallow embedding of the merge-editor input-model module
(`mergeEditorInputModel.ts`): the Temp-File and Workspace merge-editor
input models, their factories, and their dirty-tracking, save, revert,
accept and close-confirmation logic.

Modelling conventions:
- Asynchronous code is flattened to sequential execution (the module runs
  on a single-threaded cooperative event loop); each operation returns its
  new state together with the list of calls it made on the injected
  collaborators (dialog service, text-file service, editor service).
- Injected collaborators are oracles: an environment record supplies the
  values they would return (dialog choice, merge result value, the scratch
  document state after a revert, the set of resolvable documents, the
  tracked-file registry).
- Localized strings are represented by their localization keys.
- Document version markers (alternative version ids) are natural numbers.
-/

namespace MergeEditorSpec

/-- URI reduced to the parts this module inspects: scheme and path. -/
structure Uri where
  scheme : String
  path : String
deriving DecidableEq, Repr

/-- Mirrors the source expression `uri.with (\x7b scheme: s \x7d)`. -/
def Uri.withScheme (u : Uri) (s : String) : Uri :=
  { u with scheme := s }

/-- Mirrors the `ConfirmResult` enum of the dialog service. -/
inductive ConfirmResult where
  | SAVE
  | DONT_SAVE
  | CANCEL
deriving DecidableEq, Repr

/-- Mirrors `localize(key, message, args)`: the localization table is an
external collaborator, so a localized string is represented by its key. -/
def localize (key : String) : String := key

/-- One call made by the module on an injected collaborator service. -/
inductive Event where
  | showDialog (message : String) (detail : Option String)
      (actions : List String) (cancelId : Nat)
  | setDocValue (uri : Uri) (value : String)
  | textFileSave (uri : Uri)
  | textFileRevert (uri : Uri)
  | closeEditors (editorIds : List Nat)
deriving DecidableEq, Repr

/-- Tests whether an event is a dialog-service `show` call. -/
def Event.isShowDialog : Event → Bool
  | .showDialog _ _ _ _ => true
  | _ => false

/-- Text editor model: uri, current content and alternative version id. -/
structure TextModel where
  uri : Uri
  content : String
  altVersionId : Nat
deriving DecidableEq, Repr

/-- Mirrors `ITextModel.setValue`: replaces the content and moves the
document to a fresh alternative version. -/
def TextModel.setValue (m : TextModel) (v : String) : TextModel :=
  { m with content := v, altVersionId := m.altVersionId + 1 }

/-- State of `TempFileMergeEditorInputModel`: the scratch result document
(`model.resultTextModel`, the temporary model created under the
merge-result scheme), the cached value of the `altVersionId` observable
(`observableFromEvent` of `onDidChangeContent`), the `savedAltVersionId`
observable value, the `finished` flag, the real result document
(`this.result.textEditorModel`) and `this.resultUri` (`args.result`). -/
structure TempFileMergeEditorInputModel where
  scratch : TextModel
  obsAltVersionId : Nat
  savedAltVersionId : Nat
  finished : Bool
  resultDoc : TextModel
  resultUri : Uri
deriving DecidableEq, Repr

/-- Per-session behaviour of the external collaborators: the value
`model.getResultValueWithConflictMarkers()` resolves to, the value of
`model.hasUnhandledConflicts`, the scratch document state produced by
`textFileService.revert` on the scratch uri, and the editor service's open
editors as (id, uri, typeId) triples. -/
structure SessionEnv where
  mergeValue : String
  hasUnhandledConflicts : Bool
  revertedContent : String
  revertedAltVersionId : Nat
  openEditors : List (Nat × Uri × String)
deriving DecidableEq, Repr

/-- Mirrors `editorService.findEditors(resultUri).filter(e =>
e.editor.typeId === 'mergeEditor.Input')`, reduced to the editor ids. -/
def mergeEditorsOn (openEditors : List (Nat × Uri × String)) (resultUri : Uri) :
    List Nat :=
  (openEditors.filter fun e =>
    e.2.1 == resultUri && e.2.2 == ("mergeEditor.Input")).map Prod.fst

namespace TempFileMergeEditorInputModel

/-- Mirrors the derived `isDirty` observable: the cached alternative
version id differs from the saved one. -/
def isDirty (s : TempFileMergeEditorInputModel) : Bool :=
  s.obsAltVersionId != s.savedAltVersionId

/-- Temp-file variant of `shouldConfirmClose`. -/
def shouldConfirmClose (_s : TempFileMergeEditorInputModel) : Bool :=
  true

/-- Mirrors `accept()`: read the merge value, write it into the real
result document, record the scratch document's current alternative
version id as saved, persist the real result document via the text-file
service, and set `finished`. -/
def accept (env : SessionEnv) (s : TempFileMergeEditorInputModel) :
    TempFileMergeEditorInputModel × List Event :=
  let value := env.mergeValue
  ({ s with
      resultDoc := s.resultDoc.setValue value,
      savedAltVersionId := s.scratch.altVersionId,
      finished := true },
   [Event.setDocValue s.resultDoc.uri value, Event.textFileSave s.resultDoc.uri])

/-- Mirrors the private `_discard()`: revert `model.resultTextModel.uri`
(the scratch document's uri) via the text-file service, record the
scratch document's resulting alternative version id as saved (the
content-change fired by the revert also refreshes the observable cache),
and set `finished`. -/
def _discard (env : SessionEnv) (s : TempFileMergeEditorInputModel) :
    TempFileMergeEditorInputModel × List Event :=
  ({ s with
      scratch := { s.scratch with
        content := env.revertedContent,
        altVersionId := env.revertedAltVersionId },
      obsAltVersionId := env.revertedAltVersionId,
      savedAltVersionId := env.revertedAltVersionId,
      finished := true },
   [Event.textFileRevert s.scratch.uri])

/-- Mirrors `confirmClose(inputModels)`. The dialog service is an oracle:
`dialogChoice` is the index the dialog would return if shown. The caller
must pass a nonempty list containing the receiver (`assertFn`). Returns
the confirm result, the new session states, and the collaborator calls. -/
def confirmClose (dialogChoice : Nat)
    (sessions : List (TempFileMergeEditorInputModel × SessionEnv)) :
    ConfirmResult × List TempFileMergeEditorInputModel × List Event :=
  let models := sessions.map Prod.fst
  let someDirty := models.any isDirty
  let dialogEvents : List Event :=
    if someDirty then
      let isMany := decide (models.length > 1)
      let hasUnhandledConflicts := sessions.any fun p => p.2.hasUnhandledConflicts
      let message :=
        if isMany then localize ("messageN") else localize ("message1")
      let detail :=
        if hasUnhandledConflicts then
          if isMany then localize ("detailNConflicts")
          else localize ("detail1Conflicts")
        else
          if isMany then localize ("detailN") else localize ("detail1")
      let actions := [
        if hasUnhandledConflicts then localize ("saveWithConflict")
        else localize ("save"),
        localize ("discard"),
        localize ("cancel")]
      [Event.showDialog message (some detail) actions 2]
    else []
  let choice := if someDirty then dialogChoice else 1
  if choice = 2 then
    (ConfirmResult.CANCEL, models, dialogEvents)
  else if choice = 0 then
    let results := sessions.map fun p => accept p.2 p.1
    (ConfirmResult.SAVE, results.map Prod.fst,
     dialogEvents ++ (results.map Prod.snd).flatten)
  else
    let results := sessions.map fun p => _discard p.2 p.1
    (ConfirmResult.DONT_SAVE, results.map Prod.fst,
     dialogEvents ++ (results.map Prod.snd).flatten)

/-- Mirrors `save()`: a no-op once finished; otherwise show the
accept-merge confirmation dialog, and on choice 0 run `accept()` and ask
the editor service to close the merge editors open on `resultUri`. -/
def save (dialogChoice : Nat) (env : SessionEnv)
    (s : TempFileMergeEditorInputModel) :
    TempFileMergeEditorInputModel × List Event :=
  if s.finished then
    (s, [])
  else
    let dialogEvent := Event.showDialog (localize ("saveTempFile")) none
      [localize ("acceptMerge"), localize ("cancel")] 1
    if dialogChoice = 0 then
      let r := accept env s
      (r.1, dialogEvent :: r.2 ++
        [Event.closeEditors (mergeEditorsOn env.openEditors s.resultUri)])
    else
      (s, [dialogEvent])

/-- Mirrors `revert()`: a no-op. -/
def revert (s : TempFileMergeEditorInputModel) :
    TempFileMergeEditorInputModel × List Event :=
  (s, [])

/-- External mutation of the scratch document through the merge editor:
the content changes, the document moves to some alternative version id,
and the fired `onDidChangeContent` refreshes the observable cache. -/
def editScratch (newContent : String) (newAltVersionId : Nat)
    (s : TempFileMergeEditorInputModel) : TempFileMergeEditorInputModel :=
  { s with
      scratch := { s.scratch with
        content := newContent, altVersionId := newAltVersionId },
      obsAltVersionId := newAltVersionId }

end TempFileMergeEditorInputModel

/-- One operation a temp-file session can undergo after construction. -/
inductive SessionOp where
  | edit (newContent : String) (newAltVersionId : Nat)
  | userAccept (env : SessionEnv)
  | userDiscard (env : SessionEnv)
  | userSave (dialogChoice : Nat) (env : SessionEnv)
deriving Repr

/-- Applies one session operation, dropping the collaborator calls. -/
def applyOp : SessionOp → TempFileMergeEditorInputModel → TempFileMergeEditorInputModel
  | .edit c v, s => TempFileMergeEditorInputModel.editScratch c v s
  | .userAccept env, s => (TempFileMergeEditorInputModel.accept env s).1
  | .userDiscard env, s => (TempFileMergeEditorInputModel._discard env s).1
  | .userSave c env, s => (TempFileMergeEditorInputModel.save c env s).1

/-- Runs a sequence of session operations. -/
def runOps : List SessionOp → TempFileMergeEditorInputModel → TempFileMergeEditorInputModel
  | [], s => s
  | op :: ops, s => runOps ops (applyOp op s)

/-- Cache consistency of the `altVersionId` observable: its cached value
equals the scratch document's actual alternative version id. -/
def obsConsistent (s : TempFileMergeEditorInputModel) : Prop :=
  s.obsAltVersionId = s.scratch.altVersionId

/-- Mirrors `MergeEditorInputData`: a side's uri plus optional metadata. -/
structure MergeEditorInputData where
  uri : Uri
  title : Option String
  description : Option String
  detail : Option String
deriving DecidableEq, Repr

/-- Mirrors `MergeEditorArgs`: the four document locations. -/
structure MergeEditorArgs where
  base : Uri
  input1 : MergeEditorInputData
  input2 : MergeEditorInputData
  result : Uri
deriving DecidableEq, Repr

/-- Outcome of one `createModelReference` call: a handle, or a rejection. -/
inductive Resolution where
  | ok (handle : Nat)
  | err
deriving DecidableEq, Repr

/-- True when the resolution succeeded. -/
def Resolution.isOk : Resolution → Bool
  | .ok _ => true
  | .err => false

/-- The handle a successful resolution produced, as a list. -/
def Resolution.handleList : Resolution → List Nat
  | .ok h => [h]
  | .err => []

/-- Ways `createInputModel` can reject. -/
inductive CreateError where
  | resolutionFailed
  | bugIndicating
deriving DecidableEq, Repr

/-- Record of one factory run: the result (or rejection), the handles the
document resolutions produced, and the handles released (disposed) by the
time the call returned or threw. -/
structure FactoryRun (α : Type) where
  result : Except CreateError α
  resolvedHandles : List Nat
  releasedHandles : List Nat

/-- Oracle for the temp-file factory run: the outcome of each of the four
`createModelReference` calls, the resolved result document's language and
content, and the scratch document's content and alternative version id as
seen once `MergeEditorModel` initialization completed. -/
structure TempFactoryEnv where
  baseRes : Resolution
  resultRes : Resolution
  input1Res : Resolution
  input2Res : Resolution
  resultLanguageId : String
  resultContent : String
  initScratchContent : String
  initScratchAltVersionId : Nat
deriving DecidableEq, Repr

/-- Handles produced by the four resolutions of a factory run. -/
def resolvedOf (b r i1 i2 : Resolution) : List Nat :=
  b.handleList ++ r.handleList ++ i1.handleList ++ i2.handleList

/-- The `TempFileMergeEditorInputModel` state the temp-file factory
constructs on its success path: the scratch document lives at the result
uri re-schemed to merge-result, and the saved alternative version id and
the observable cache both start at the scratch document's current id. -/
def initialTempModel (env : TempFactoryEnv) (args : MergeEditorArgs) :
    TempFileMergeEditorInputModel :=
  let tempResultUri := args.result.withScheme ("merge-result")
  let scratchModel : TextModel :=
    { uri := tempResultUri,
      content := env.initScratchContent,
      altVersionId := env.initScratchAltVersionId }
  let resultModel : TextModel :=
    { uri := args.result, content := env.resultContent, altVersionId := 0 }
  { scratch := scratchModel,
    obsAltVersionId := env.initScratchAltVersionId,
    savedAltVersionId := env.initScratchAltVersionId,
    finished := false,
    resultDoc := resultModel,
    resultUri := args.result }

/-- Mirrors `TempFileMergeEditorModeFactory.createInputModel`: the four
documents are resolved concurrently; if all succeed the scratch model and
the merge model are built and the input model is returned with its store
alive (nothing released). If any resolution rejects, the whole call
rejects; the function has no catch block, so the store is never disposed
on that path and no handle is released. -/
def TempFileMergeEditorModeFactory.createInputModel (env : TempFactoryEnv)
    (args : MergeEditorArgs) : FactoryRun TempFileMergeEditorInputModel :=
  let resolved := resolvedOf env.baseRes env.resultRes env.input1Res env.input2Res
  if env.baseRes.isOk && env.resultRes.isOk &&
      env.input1Res.isOk && env.input2Res.isOk then
    { result := Except.ok (initialTempModel env args),
      resolvedHandles := resolved,
      releasedHandles := [] }
  else
    { result := Except.error CreateError.resolutionFailed,
      resolvedHandles := resolved,
      releasedHandles := [] }

/-- State of `WorkspaceMergeEditorInputModel`: the captured
`resultTextFileModel`, reduced to its resource and its dirty flag. -/
structure WorkspaceMergeEditorInputModel where
  resultFileDirty : Bool
  resultFileResource : Uri
deriving DecidableEq, Repr

namespace WorkspaceMergeEditorInputModel

/-- Workspace `isDirty`: mirrors the tracked file's own dirty state. -/
def isDirty (s : WorkspaceMergeEditorInputModel) : Bool :=
  s.resultFileDirty

/-- Workspace variant of `shouldConfirmClose`. -/
def shouldConfirmClose (_s : WorkspaceMergeEditorInputModel) : Bool :=
  false

/-- Workspace `confirmClose`: always resolves SAVE. -/
def confirmClose (_s : WorkspaceMergeEditorInputModel)
    (_inputModels : List WorkspaceMergeEditorInputModel) : ConfirmResult :=
  ConfirmResult.SAVE

end WorkspaceMergeEditorInputModel

/-- Oracle for the workspace factory run: the four resolution outcomes,
the resources in `textFileService.files.models` when the factory scans
the registry, the resources announced by `files.onDidCreate` before the
factory performs its tracked-record check, and the captured file's dirty
state. -/
structure WorkspaceFactoryEnv where
  baseRes : Resolution
  resultRes : Resolution
  input1Res : Resolution
  input2Res : Resolution
  trackedFiles : List Uri
  announcedFiles : List Uri
  resultFileDirty : Bool
deriving DecidableEq, Repr

/-- Mirrors `WorkspaceMergeEditorModeFactory.createInputModel`: the
tracked-record listener captures the first file model whose resource
equals `args.result`, from the registry or from the creation events; the
four documents are then resolved. A resolution failure rejects the call
(no catch block, so nothing is released). After the merge model is built,
a missing captured record throws `BugIndicatingError`. -/
def WorkspaceMergeEditorModeFactory.createInputModel
    (env : WorkspaceFactoryEnv) (args : MergeEditorArgs) :
    FactoryRun WorkspaceMergeEditorInputModel :=
  let resolved := resolvedOf env.baseRes env.resultRes env.input1Res env.input2Res
  if env.baseRes.isOk && env.resultRes.isOk &&
      env.input1Res.isOk && env.input2Res.isOk then
    if (env.trackedFiles ++ env.announcedFiles).any (fun u => u == args.result) then
      { result := Except.ok
          { resultFileDirty := env.resultFileDirty,
            resultFileResource := args.result },
        resolvedHandles := resolved,
        releasedHandles := [] }
    else
      { result := Except.error CreateError.bugIndicating,
        resolvedHandles := resolved,
        releasedHandles := [] }
  else
    { result := Except.error CreateError.resolutionFailed,
      resolvedHandles := resolved,
      releasedHandles := [] }

/- Concrete fixtures used for counterexamples and witnesses. -/

/-- Scratch document uri of the sample session (merge-result scheme). -/
def scratchUriA : Uri := { scheme := "merge-result", path := "a.txt" }

/-- Real result document uri of the sample session. -/
def resultUriA : Uri := { scheme := "file", path := "a.txt" }

/-- A non-dirty temp-file session: cached and saved version ids agree. -/
def sessionA : TempFileMergeEditorInputModel :=
  { scratch := { uri := scratchUriA, content := "merged text", altVersionId := 5 },
    obsAltVersionId := 5,
    savedAltVersionId := 5,
    finished := false,
    resultDoc := { uri := resultUriA, content := "orig", altVersionId := 0 },
    resultUri := resultUriA }

/-- A dirty temp-file session: the scratch document moved to version 7. -/
def sessionDirty : TempFileMergeEditorInputModel :=
  { sessionA with
      scratch := { sessionA.scratch with altVersionId := 7 },
      obsAltVersionId := 7 }

/-- A session already marked finished. -/
def sessionFinished : TempFileMergeEditorInputModel :=
  { sessionA with finished := true }

/-- Sample collaborator behaviour for the sample session. -/
def envA : SessionEnv :=
  { mergeValue := "merged value",
    hasUnhandledConflicts := false,
    revertedContent := "",
    revertedAltVersionId := 9,
    openEditors := [(1, resultUriA, "mergeEditor.Input"), (2, resultUriA, "text")] }

/-- Builds a metadata-free side descriptor for a file path. -/
def plainInput (p : String) : MergeEditorInputData :=
  { uri := { scheme := "file", path := p }, title := none,
    description := none, detail := none }

/-- Sample factory arguments. -/
def argsA : MergeEditorArgs :=
  { base := { scheme := "file", path := "base.txt" },
    input1 := plainInput ("i1.txt"),
    input2 := plainInput ("i2.txt"),
    result := resultUriA }

/-- A temp-file factory environment where the base resolution fails while
the other three resolutions succeed with handles 1, 2 and 3. -/
def tEnvBaseFail : TempFactoryEnv :=
  { baseRes := Resolution.err, resultRes := Resolution.ok 1,
    input1Res := Resolution.ok 2, input2Res := Resolution.ok 3,
    resultLanguageId := "plaintext", resultContent := "",
    initScratchContent := "", initScratchAltVersionId := 1 }

/-- A workspace factory environment where all resolutions succeed but no
tracked file record matches the result path. -/
def wEnvUntracked : WorkspaceFactoryEnv :=
  { baseRes := Resolution.ok 1, resultRes := Resolution.ok 2,
    input1Res := Resolution.ok 3, input2Res := Resolution.ok 4,
    trackedFiles := [{ scheme := "file", path := "other.txt" }],
    announcedFiles := [],
    resultFileDirty := false }

/-- A workspace factory environment where the base resolution fails. -/
def wEnvBaseFail : WorkspaceFactoryEnv :=
  { wEnvUntracked with baseRes := Resolution.err }

/- Helper lemmas shared by the claim theorems. -/

/-- If no session in the list is dirty, the dirty scan comes back false. -/
theorem any_isDirty_map_false
    (sessions : List (TempFileMergeEditorInputModel × SessionEnv))
    (hnd : ∀ p ∈ sessions, TempFileMergeEditorInputModel.isDirty p.1 = false) :
    (sessions.map Prod.fst).any TempFileMergeEditorInputModel.isDirty = false := by
  induction sessions with
  | nil => rfl
  | cons p ps ih =>
    simp only [List.map_cons, List.any_cons, Bool.or_eq_false_iff]
    exact ⟨hnd p (List.mem_cons_self p ps),
      ih fun q hq => hnd q (List.mem_cons_of_mem p hq)⟩

/-- With no dirty session, `confirmClose` takes the silent discard path. -/
theorem confirmClose_clean_eq (dialogChoice : Nat)
    (sessions : List (TempFileMergeEditorInputModel × SessionEnv))
    (hsd : (sessions.map Prod.fst).any TempFileMergeEditorInputModel.isDirty = false) :
    TempFileMergeEditorInputModel.confirmClose dialogChoice sessions =
      (ConfirmResult.DONT_SAVE,
       sessions.map fun p => (TempFileMergeEditorInputModel._discard p.2 p.1).1,
       (sessions.map fun p => (TempFileMergeEditorInputModel._discard p.2 p.1).2).flatten) := by
  simp only [TempFileMergeEditorInputModel.confirmClose, hsd, Bool.false_eq_true,
    if_false, reduceIte, List.map_map, List.nil_append]
  rfl

/-- The events produced by discarding a list of sessions hold no dialog. -/
theorem discard_events_no_dialog
    (sessions : List (TempFileMergeEditorInputModel × SessionEnv)) :
    ((sessions.map fun p =>
        (TempFileMergeEditorInputModel._discard p.2 p.1).2).flatten.any
      Event.isShowDialog) = false := by
  induction sessions with
  | nil => rfl
  | cons p ps ih =>
    simp only [List.map_cons, List.flatten_cons, List.any_append, ih, Bool.or_false]
    rfl

/-- C9: `shouldConfirmClose` returns true on every Temp-File session and
false on every Workspace session. -/
theorem shouldConfirmClose_temp_true_workspace_false
    (s : TempFileMergeEditorInputModel) (w : WorkspaceMergeEditorInputModel) :
    s.shouldConfirmClose = true ∧ w.shouldConfirmClose = false :=
  ⟨rfl, rfl⟩

/-- C7: when all four resolutions succeed but no tracked file record for
the result path exists in the registry or is announced before the check,
the workspace factory rejects with the invariant-violation error rather
than hanging or returning a model. -/
theorem workspace_factory_untracked_bug_error
    (env : WorkspaceFactoryEnv) (args : MergeEditorArgs)
    (hb : env.baseRes.isOk = true) (hr : env.resultRes.isOk = true)
    (h1 : env.input1Res.isOk = true) (h2 : env.input2Res.isOk = true)
    (hnone : ∀ u ∈ env.trackedFiles ++ env.announcedFiles, u ≠ args.result) :
    (WorkspaceMergeEditorModeFactory.createInputModel env args).result =
      Except.error CreateError.bugIndicating := by
  have hfalse :
      ((env.trackedFiles ++ env.announcedFiles).any fun u => u == args.result) = false := by
    by_contra hcon
    rw [Bool.not_eq_false, List.any_eq_true] at hcon
    obtain ⟨u, hu, hbeq⟩ := hcon
    exact hnone u hu (beq_iff_eq.mp hbeq)
  simp [WorkspaceMergeEditorModeFactory.createInputModel, hb, hr, h1, h2, hfalse]

/-- C7 witness: a concrete untracked-result workspace construction. -/
theorem workspace_factory_untracked_bug_error_witness :
    (WorkspaceMergeEditorModeFactory.createInputModel wEnvUntracked argsA).result =
      Except.error CreateError.bugIndicating :=
  workspace_factory_untracked_bug_error wEnvUntracked argsA rfl rfl rfl rfl (by decide)

/-- C3 counterexample: with the base resolution failing and the others
succeeding, construction rejects but the handle resolved for input1 is
left un-released. -/
theorem factory_failure_leaked_handle_counterexample :
    (TempFileMergeEditorModeFactory.createInputModel tEnvBaseFail argsA).result =
      Except.error CreateError.resolutionFailed ∧
    2 ∈ (TempFileMergeEditorModeFactory.createInputModel tEnvBaseFail argsA).resolvedHandles ∧
    2 ∉ (TempFileMergeEditorModeFactory.createInputModel tEnvBaseFail argsA).releasedHandles :=
  ⟨rfl, by decide, by decide⟩

/-- C3 (amended): when one of the four document resolutions fails, both
factory variants reject with the resolution error, and no handle is
released before the error surfaces (the disposal store is never disposed
on this path), so handles that already resolved leak. -/
theorem factory_resolution_failure_rejects_releases_nothing
    (env : TempFactoryEnv) (wenv : WorkspaceFactoryEnv)
    (args wargs : MergeEditorArgs)
    (h : env.baseRes.isOk = false ∨ env.resultRes.isOk = false ∨
      env.input1Res.isOk = false ∨ env.input2Res.isOk = false)
    (hw : wenv.baseRes.isOk = false ∨ wenv.resultRes.isOk = false ∨
      wenv.input1Res.isOk = false ∨ wenv.input2Res.isOk = false) :
    (TempFileMergeEditorModeFactory.createInputModel env args).result =
      Except.error CreateError.resolutionFailed ∧
    (TempFileMergeEditorModeFactory.createInputModel env args).releasedHandles = [] ∧
    (WorkspaceMergeEditorModeFactory.createInputModel wenv wargs).result =
      Except.error CreateError.resolutionFailed ∧
    (WorkspaceMergeEditorModeFactory.createInputModel wenv wargs).releasedHandles = [] := by
  have hc : (env.baseRes.isOk && env.resultRes.isOk &&
      env.input1Res.isOk && env.input2Res.isOk) = false := by
    rcases h with h | h | h | h <;> simp [h]
  have hcw : (wenv.baseRes.isOk && wenv.resultRes.isOk &&
      wenv.input1Res.isOk && wenv.input2Res.isOk) = false := by
    rcases hw with h | h | h | h <;> simp [h]
  refine ⟨?_, ?_, ?_, ?_⟩ <;>
    simp [TempFileMergeEditorModeFactory.createInputModel,
      WorkspaceMergeEditorModeFactory.createInputModel, hc, hcw]

/-- C3 amended-claim witness: concrete failing constructions. -/
theorem factory_resolution_failure_rejects_releases_nothing_witness :
    (TempFileMergeEditorModeFactory.createInputModel tEnvBaseFail argsA).result =
      Except.error CreateError.resolutionFailed ∧
    (TempFileMergeEditorModeFactory.createInputModel tEnvBaseFail argsA).releasedHandles = [] ∧
    (WorkspaceMergeEditorModeFactory.createInputModel wEnvBaseFail argsA).result =
      Except.error CreateError.resolutionFailed ∧
    (WorkspaceMergeEditorModeFactory.createInputModel wEnvBaseFail argsA).releasedHandles = [] :=
  factory_resolution_failure_rejects_releases_nothing tEnvBaseFail wEnvBaseFail argsA argsA
    (Or.inl rfl) (Or.inl rfl)

/-- C1 counterexample: on a concrete set with no dirty session,
`confirmClose` shows no dialog but resolves the don't-save result, not
the save result the claim states. -/
theorem confirmClose_clean_not_save_counterexample :
    (TempFileMergeEditorInputModel.confirmClose 0 [(sessionA, envA)]).1 =
      ConfirmResult.DONT_SAVE ∧
    (TempFileMergeEditorInputModel.confirmClose 0 [(sessionA, envA)]).1 ≠
      ConfirmResult.SAVE ∧
    ((TempFileMergeEditorInputModel.confirmClose 0 [(sessionA, envA)]).2.2.any
      Event.isShowDialog) = false := by
  decide

/-- C1 (amended): for every set of Temp-File sessions with no dirty
session, `confirmClose` resolves the don't-save result without showing
any dialog. -/
theorem confirmClose_clean_dont_save_no_dialog (dialogChoice : Nat)
    (sessions : List (TempFileMergeEditorInputModel × SessionEnv))
    (_hne : sessions ≠ [])
    (hnd : ∀ p ∈ sessions, TempFileMergeEditorInputModel.isDirty p.1 = false) :
    (TempFileMergeEditorInputModel.confirmClose dialogChoice sessions).1 =
      ConfirmResult.DONT_SAVE ∧
    ((TempFileMergeEditorInputModel.confirmClose dialogChoice sessions).2.2.any
      Event.isShowDialog) = false := by
  rw [confirmClose_clean_eq dialogChoice sessions (any_isDirty_map_false sessions hnd)]
  exact ⟨rfl, discard_events_no_dialog sessions⟩

/-- C1 amended-claim witness: one concrete non-dirty session. -/
theorem confirmClose_clean_dont_save_no_dialog_witness :
    (TempFileMergeEditorInputModel.confirmClose 3 [(sessionA, envA)]).1 =
      ConfirmResult.DONT_SAVE ∧
    ((TempFileMergeEditorInputModel.confirmClose 3 [(sessionA, envA)]).2.2.any
      Event.isShowDialog) = false :=
  confirmClose_clean_dont_save_no_dialog 3 [(sessionA, envA)] (by decide) (by decide)

/-- C2 counterexample: for a concrete non-dirty session whose scratch
document lives under the merge-result scheme, the discard run by
`confirmClose` reverts the scratch document's uri and never the real
result document's uri, contradicting the claim that the real result
document is reverted. -/
theorem discard_reverts_scratch_not_result_counterexample :
    (TempFileMergeEditorInputModel.confirmClose 0 [(sessionA, envA)]).2.2 =
      [Event.textFileRevert scratchUriA] ∧
    scratchUriA ≠ sessionA.resultDoc.uri ∧
    Event.textFileRevert sessionA.resultDoc.uri ∉
      (TempFileMergeEditorInputModel.confirmClose 0 [(sessionA, envA)]).2.2 := by
  decide

/-- C2 (amended): for every Temp-File `confirmClose` call with no dirty
session, the internal discard still runs on every session in the set: a
text-file-service revert of the session's scratch result document is
issued, every returned session is marked finished, and every subsequent
`save` on it is a no-op. -/
theorem confirmClose_clean_discards_every_session (dialogChoice : Nat)
    (sessions : List (TempFileMergeEditorInputModel × SessionEnv))
    (_hne : sessions ≠ [])
    (hnd : ∀ p ∈ sessions, TempFileMergeEditorInputModel.isDirty p.1 = false) :
    (TempFileMergeEditorInputModel.confirmClose dialogChoice sessions).2.1 =
      (sessions.map fun p => (TempFileMergeEditorInputModel._discard p.2 p.1).1) ∧
    (∀ p ∈ sessions,
      Event.textFileRevert p.1.scratch.uri ∈
        (TempFileMergeEditorInputModel.confirmClose dialogChoice sessions).2.2) ∧
    (∀ s2 ∈ (TempFileMergeEditorInputModel.confirmClose dialogChoice sessions).2.1,
      s2.finished = true ∧
      ∀ c env2, TempFileMergeEditorInputModel.save c env2 s2 = (s2, [])) := by
  rw [confirmClose_clean_eq dialogChoice sessions (any_isDirty_map_false sessions hnd)]
  refine ⟨rfl, ?_, ?_⟩
  · intro p hp
    apply List.mem_flatten.mpr
    refine ⟨[Event.textFileRevert p.1.scratch.uri], ?_, List.mem_cons_self _ _⟩
    exact List.mem_map.mpr ⟨p, hp, rfl⟩
  · intro s2 hs2
    obtain ⟨p, _hp, rfl⟩ := List.mem_map.mp hs2
    refine ⟨rfl, ?_⟩
    intro c env2
    simp [TempFileMergeEditorInputModel.save, TempFileMergeEditorInputModel._discard]

/-- C2 amended-claim witness: the concrete session's scratch revert call
is among the emitted collaborator calls. -/
theorem confirmClose_clean_discards_every_session_witness :
    Event.textFileRevert sessionA.scratch.uri ∈
      (TempFileMergeEditorInputModel.confirmClose 3 [(sessionA, envA)]).2.2 :=
  (confirmClose_clean_discards_every_session 3 [(sessionA, envA)] (by decide)
    (by decide)).2.1 (sessionA, envA) (List.mem_cons_self _ _)

/-- Every session operation preserves observable-cache consistency. -/
theorem obsConsistent_applyOp (op : SessionOp) (s : TempFileMergeEditorInputModel)
    (h : obsConsistent s) : obsConsistent (applyOp op s) := by
  cases op with
  | edit c v =>
    simp [applyOp, TempFileMergeEditorInputModel.editScratch, obsConsistent]
  | userAccept env =>
    simpa [applyOp, TempFileMergeEditorInputModel.accept, obsConsistent] using h
  | userDiscard env =>
    simp [applyOp, TempFileMergeEditorInputModel._discard, obsConsistent]
  | userSave c env =>
    simp only [applyOp, TempFileMergeEditorInputModel.save]
    by_cases hf : s.finished = true
    · simpa [hf] using h
    · by_cases hc : c = 0
      · simpa [hf, hc, TempFileMergeEditorInputModel.accept, obsConsistent] using h
      · simpa [hf, hc] using h

/-- Observable-cache consistency is preserved along operation sequences. -/
theorem obsConsistent_runOps (ops : List SessionOp)
    (s : TempFileMergeEditorInputModel) (h : obsConsistent s) :
    obsConsistent (runOps ops s) := by
  induction ops generalizing s with
  | nil => exact h
  | cons op ops ih => exact ih _ (obsConsistent_applyOp op s h)

/-- C4: at every observation point along every operation sequence from a
factory-constructed Temp-File session, `isDirty` is true iff the scratch
document's current alternative version id differs from the one recorded
at the last save point (construction, accept or discard); edits to the
scratch document refresh the observable before it is read. -/
theorem isDirty_iff_marker_differs (env : TempFactoryEnv) (args : MergeEditorArgs)
    (ops : List SessionOp) :
    (runOps ops (initialTempModel env args)).isDirty = true ↔
      (runOps ops (initialTempModel env args)).scratch.altVersionId ≠
        (runOps ops (initialTempModel env args)).savedAltVersionId := by
  have h : obsConsistent (runOps ops (initialTempModel env args)) :=
    obsConsistent_runOps ops _ rfl
  rw [obsConsistent] at h
  rw [TempFileMergeEditorInputModel.isDirty, h]
  exact bne_iff_ne

/-- C5: `accept` writes exactly the merge model's conflict-marked value
into the real result document, persists that document via the text-file
service, records the scratch document's current alternative version id
as the new save point so that `isDirty` becomes false, and marks the
session finished. -/
theorem accept_spec (env : SessionEnv) (s : TempFileMergeEditorInputModel)
    (h : obsConsistent s) :
    (TempFileMergeEditorInputModel.accept env s).2 =
      [Event.setDocValue s.resultDoc.uri env.mergeValue,
       Event.textFileSave s.resultDoc.uri] ∧
    ((TempFileMergeEditorInputModel.accept env s).1).resultDoc.content =
      env.mergeValue ∧
    ((TempFileMergeEditorInputModel.accept env s).1).savedAltVersionId =
      s.scratch.altVersionId ∧
    ((TempFileMergeEditorInputModel.accept env s).1).isDirty = false ∧
    ((TempFileMergeEditorInputModel.accept env s).1).finished = true := by
  refine ⟨rfl, rfl, rfl, ?_, rfl⟩
  rw [obsConsistent] at h
  simp [TempFileMergeEditorInputModel.accept, TempFileMergeEditorInputModel.isDirty, h]

/-- C5 witness: `accept` on the concrete non-dirty session. -/
theorem accept_spec_witness :
    (TempFileMergeEditorInputModel.accept envA sessionA).2 =
      [Event.setDocValue sessionA.resultDoc.uri envA.mergeValue,
       Event.textFileSave sessionA.resultDoc.uri] ∧
    ((TempFileMergeEditorInputModel.accept envA sessionA).1).resultDoc.content =
      envA.mergeValue ∧
    ((TempFileMergeEditorInputModel.accept envA sessionA).1).savedAltVersionId =
      sessionA.scratch.altVersionId ∧
    ((TempFileMergeEditorInputModel.accept envA sessionA).1).isDirty = false ∧
    ((TempFileMergeEditorInputModel.accept envA sessionA).1).finished = true :=
  accept_spec envA sessionA rfl

/-- C6 counterexample: `accept` on a finished session is not ignored: it
still performs its write of the real result document. -/
theorem accept_after_finished_counterexample :
    sessionFinished.finished = true ∧
    (TempFileMergeEditorInputModel.accept envA sessionFinished).2 ≠ [] ∧
    Event.setDocValue sessionFinished.resultDoc.uri envA.mergeValue ∈
      (TempFileMergeEditorInputModel.accept envA sessionFinished).2 := by
  decide

/-- C6 (amended): once a session is marked finished, `save` is silently
ignored (no write, no dialog, no state change, no error), while `accept`
is not guarded by the finished flag: it still performs its write and
persist calls. -/
theorem finished_save_noop_accept_unguarded (c : Nat) (env : SessionEnv)
    (s : TempFileMergeEditorInputModel) (h : s.finished = true) :
    TempFileMergeEditorInputModel.save c env s = (s, []) ∧
    (TempFileMergeEditorInputModel.accept env s).2 =
      [Event.setDocValue s.resultDoc.uri env.mergeValue,
       Event.textFileSave s.resultDoc.uri] :=
  ⟨by simp [TempFileMergeEditorInputModel.save, h], rfl⟩

/-- C6 amended-claim witness: the concrete finished session. -/
theorem finished_save_noop_accept_unguarded_witness :
    TempFileMergeEditorInputModel.save 0 envA sessionFinished =
      (sessionFinished, []) ∧
    (TempFileMergeEditorInputModel.accept envA sessionFinished).2 =
      [Event.setDocValue sessionFinished.resultDoc.uri envA.mergeValue,
       Event.textFileSave sessionFinished.resultDoc.uri] :=
  finished_save_noop_accept_unguarded 0 envA sessionFinished rfl

/-- C8: with at least one dirty session and the user answering Cancel
(choice index 2), `confirmClose` returns the cancel result and hands back
every session state unchanged: dirty flag, save-point marker, finished
flag and result document are all as before. -/
theorem confirmClose_cancel_returns_cancel_unchanged
    (sessions : List (TempFileMergeEditorInputModel × SessionEnv))
    (_hne : sessions ≠ [])
    (hd : (sessions.map Prod.fst).any TempFileMergeEditorInputModel.isDirty = true) :
    (TempFileMergeEditorInputModel.confirmClose 2 sessions).1 =
      ConfirmResult.CANCEL ∧
    (TempFileMergeEditorInputModel.confirmClose 2 sessions).2.1 =
      sessions.map Prod.fst := by
  constructor <;> simp [TempFileMergeEditorInputModel.confirmClose, hd]

/-- C8 witness: one concrete dirty session, user cancels. -/
theorem confirmClose_cancel_returns_cancel_unchanged_witness :
    (TempFileMergeEditorInputModel.confirmClose 2 [(sessionDirty, envA)]).1 =
      ConfirmResult.CANCEL ∧
    (TempFileMergeEditorInputModel.confirmClose 2 [(sessionDirty, envA)]).2.1 =
      ([(sessionDirty, envA)] :
        List (TempFileMergeEditorInputModel × SessionEnv)).map Prod.fst :=
  confirmClose_cancel_returns_cancel_unchanged [(sessionDirty, envA)]
    (by decide) (by decide)

/-- C10: on an unfinished session, `save` shows the accept-merge
confirmation dialog; on the affirmative choice it transitions to the
`accept` state and asks the editor service to close the merge editors
open on the result uri; on any other choice the state is unchanged. -/
theorem save_prompts_then_accepts_or_aborts (choice : Nat) (env : SessionEnv)
    (s : TempFileMergeEditorInputModel) (h : s.finished = false) :
    (∃ rest, (TempFileMergeEditorInputModel.save choice env s).2 =
      Event.showDialog (localize ("saveTempFile")) none
        [localize ("acceptMerge"), localize ("cancel")] 1 :: rest) ∧
    (choice = 0 →
      (TempFileMergeEditorInputModel.save choice env s).1 =
        (TempFileMergeEditorInputModel.accept env s).1 ∧
      Event.closeEditors (mergeEditorsOn env.openEditors s.resultUri) ∈
        (TempFileMergeEditorInputModel.save choice env s).2) ∧
    (choice ≠ 0 → (TempFileMergeEditorInputModel.save choice env s).1 = s) := by
  by_cases hc : choice = 0
  · subst hc
    refine ⟨⟨(TempFileMergeEditorInputModel.accept env s).2 ++
        [Event.closeEditors (mergeEditorsOn env.openEditors s.resultUri)], ?_⟩,
      fun _ => ⟨?_, ?_⟩, fun hne => absurd rfl hne⟩
    · simp [TempFileMergeEditorInputModel.save, h]
    · simp [TempFileMergeEditorInputModel.save, h]
    · simp [TempFileMergeEditorInputModel.save, h,
        TempFileMergeEditorInputModel.accept]
  · refine ⟨⟨[], ?_⟩, fun h0 => absurd h0 hc, fun _ => ?_⟩
    · simp [TempFileMergeEditorInputModel.save, h, hc]
    · simp [TempFileMergeEditorInputModel.save, h, hc]

/-- C10 witness: the concrete unfinished session with choice 0. -/
theorem save_prompts_then_accepts_or_aborts_witness :
    (TempFileMergeEditorInputModel.save 0 envA sessionA).1 =
      (TempFileMergeEditorInputModel.accept envA sessionA).1 ∧
    Event.closeEditors (mergeEditorsOn envA.openEditors sessionA.resultUri) ∈
      (TempFileMergeEditorInputModel.save 0 envA sessionA).2 :=
  (save_prompts_then_accepts_or_aborts 0 envA sessionA rfl).2.1 rfl

end MergeEditorSpec
